import Mathlib

/-!
Shallow embedding of the Resource-Allocator-Client repository (the files
resource_allocator_client/client.py and resource_allocator_client/callback.py)
and proofs about its token cache, redirect listener and login orchestrator.

Modelling conventions:
* Timezone-aware UTC datetimes are modelled as Int instants ordered by the
  less-than relation.  Python datetime.isoformat and datetime.fromisoformat
  round-trip exactly on aware datetimes, so serialization of the timestamp is
  the identity on these instants.
* Python exceptions are the constructors of PyErr; a function that can raise
  returns Except PyErr.  The constructor PyErr.timeoutError exists only to
  state the dedicated Timeout error postulated by the specification: no
  modelled code produces it.
* File-system contents are passed explicitly: FileState is what the cache
  file at the cache path holds, and Cache.write returns the record it
  serializes.  A parsed, well-formed cache record (the JSON format of the
  specification: string fields server, email, token, and an ISO-8601 aware
  expires_at) is CacheRecord.
* Network activity is an explicit trace of NetReq events returned alongside
  the result; an empty trace means no HTTP request was issued.
-/

namespace RAClient

/-- Python exceptions raised by the modelled code.  The timeoutError
constructor is never produced by the code; it stands for the dedicated
Timeout error that the specification postulates. -/
inductive PyErr where
  | nameError
  | ioError
  | attributeError
  | indexError
  | apiError
  | valueError
  | timeoutError
deriving DecidableEq, Repr

/-- Python string truthiness for an optional token: None and the empty
string are falsy. -/
def truthy : Option String → Bool
  | none => false
  | some s => !s.isEmpty

/-! ## Token cache (client.py, class Cache) -/

/-- A parsed, well-formed on-disk cache record: a JSON object with string
fields server, email, token and an ISO-8601 aware expires_at timestamp. -/
structure CacheRecord where
  server : String
  email : String
  token : String
  expires_at : Int
deriving DecidableEq, Repr

/-- In-memory state of the Cache dataclass: token and expires_at default to
None.  The path field of the source is inert in the embedding: the file the
cache reads and writes is passed explicitly as a FileState. -/
structure Cache where
  server : String
  email : String
  token : Option String
  expires_at : Option Int
deriving DecidableEq, Repr

/-- Contents of the file at the cache path. -/
inductive FileState where
  /-- path.exists() is false. -/
  | missing
  /-- the file exists but opening it raises (unreadable). -/
  | unreadable
  /-- the file opens but json.load raises (not valid JSON). -/
  | unparseable
  /-- the file parses into a well-formed record. -/
  | parsed (r : CacheRecord)
deriving DecidableEq, Repr

/-- Session-restoring branch of Cache.read once the data has parsed: sets
token and expires_at from the record iff the stored server and email equal
those of the cache and the stored expiry is strictly after now (UTC). -/
def Cache.readRecord (c : Cache) (r : CacheRecord) (now : Int) : Cache :=
  if c.server = r.server ∧ c.email = r.email ∧ now < r.expires_at then
    { c with token := some r.token, expires_at := some r.expires_at }
  else
    c

/-- Model of Cache.read: returns the cache untouched if the file is missing;
raises an uncaught IOError if opening fails; if json.load raises, the handler
only logs and the following use of the unbound local named data raises an
uncaught NameError; otherwise restores the session per readRecord. -/
def Cache.read (c : Cache) (fs : FileState) (now : Int) : Except PyErr Cache :=
  match fs with
  | .missing => .ok c
  | .unreadable => .error .ioError
  | .unparseable => .error .nameError
  | .parsed r => .ok (c.readRecord r now)

/-- Model of Cache.write: serializes the cache fields to the file as a
record.  Defined on caches holding a token and an expiry: with expires_at
set to None the source raises AttributeError (isoformat on None), and with
token set to None it would serialize JSON null, which is not a well-formed
record. -/
def Cache.write (c : Cache) : Option CacheRecord :=
  match c.token, c.expires_at with
  | some t, some e => some ⟨c.server, c.email, t, e⟩
  | _, _ => none

/-- A usable session: both token and expires_at are set. -/
def usableSession (c : Cache) : Prop :=
  c.token ≠ none ∧ c.expires_at ≠ none

instance (c : Cache) : Decidable (usableSession c) := by
  unfold usableSession; infer_instance

/-- Character class of Cache._replace_chars: less-than, greater-than, colon,
slash, backslash, pipe, question mark, asterisk. -/
def illegalChar (c : Char) : Bool :=
  c = '<' || c = '>' || c = ':' || c = '/' || c = '\\' || c = '|' ||
    c = '?' || c = '*'

/-- Regex substitution of one-or-more illegal characters by an underscore,
on a character list: every maximal run of illegal characters becomes a single
underscore.  The Boolean flag records whether the previous character was part
of an illegal run. -/
def replaceCharsAux : Bool → List Char → List Char
  | _, [] => []
  | inRun, c :: cs =>
    if illegalChar c then
      if inRun then replaceCharsAux true cs
      else '_' :: replaceCharsAux true cs
    else
      c :: replaceCharsAux false cs

/-- Model of the static method Cache._replace_chars. -/
def Cache.replaceChars (value : String) : String :=
  ⟨replaceCharsAux false value.data⟩

/-- Default cache file name from Cache.__post_init__ when no path is given:
the name is _replace_chars of the server plus the .json suffix, after which
_replace_chars runs once more over the resulting file name. -/
def Cache.defaultFileName (server : String) : String :=
  Cache.replaceChars (Cache.replaceChars server ++ ".json")

/-! ## Redirect listener (callback.py) -/

/-- An incoming HTTP GET request, reduced to its parsed query string as per
parse_qs: parameter name mapped to its list of values; only parameters with
at least one value appear. -/
structure Request where
  query : List (String × List String)
deriving DecidableEq, Repr

/-- First value of the code parameter, if present: query.get of the key code
followed by indexing the value list at zero. -/
def Request.firstCode (r : Request) : Option String :=
  match r.query.lookup "code" with
  | some (v :: _) => some v
  | _ => none

/-- Model of CallbackHandler.do_GET: append the first code value to the
shared list and respond 200, else respond 400. -/
def doGET (r : Request) (var : List String) : List String × Nat :=
  match r.firstCode with
  | some c => (var ++ [c], 200)
  | none => (var, 400)

/-- Model of run_callback_server: handle_request serves exactly one request
(or returns after the 60-second CallbackServer.timeout if none arrives);
then the first element of the shared list is returned, raising IndexError
when no code was captured.  The input is the stream of requests that would
arrive within the window; the second component is the trace of served
requests with their response status. -/
def runCallbackServer (reqs : List Request) :
    Except PyErr String × List (Request × Nat) :=
  match reqs with
  | [] => (.error .indexError, [])
  | r :: _ =>
    let served := doGET r []
    match served.1 with
    | [] => (.error .indexError, [(r, served.2)])
    | c :: _ => (.ok c, [(r, served.2)])

/-! ## Client (client.py, class Client) -/

/-- Strip every trailing slash, as str.rstrip with a slash argument. -/
def rstripSlash (s : String) : String :=
  ⟨(s.data.reverse.dropWhile (· = '/')).reverse⟩

/-- Strip leading and trailing slashes, as str.strip with a slash
argument. -/
def stripSlash (s : String) : String :=
  ⟨((s.data.dropWhile (· = '/')).reverse.dropWhile (· = '/')).reverse⟩

/-- Python str.startswith on character lists (the first argument begins with
the second). -/
def beginsWith : List Char → List Char → Bool
  | _, [] => true
  | [], _ :: _ => false
  | c :: cs, p :: ps => c = p && beginsWith cs ps

/-- Python str.startswith on strings. -/
def strBeginsWith (s p : String) : Bool :=
  beginsWith s.data p.data

/-- Server URL normalization in Client.__init__: prepend the https scheme
when the string starts with neither scheme, then strip trailing slashes. -/
def normalizeServer (server : String) : String :=
  let server2 :=
    if !strBeginsWith server "http://" && !strBeginsWith server "https://" then
      "https://" ++ server
    else
      server
  rstripSlash server2

/-- Client instance state after __init__. -/
structure ClientSt where
  server : String
  email : String
  password : Option String
  azure_login : Bool
  cache : Cache
deriving DecidableEq, Repr

/-- Model of Client.__init__: raises ValueError unless exactly one of
password and azure_login is given; normalizes the server URL; builds the
cache with the normalized server and the same email.  Pure: no network or
file I-O happens here. -/
def Client.init (server email : String) (password : Option String)
    (azure_login : Bool) : Except PyErr ClientSt :=
  if (password.isNone && !azure_login) || (password.isSome && azure_login) then
    .error .valueError
  else
    let s := normalizeServer server
    .ok ⟨s, email, password, azure_login, ⟨s, email, none, none⟩⟩

/-- URL construction of Client._make_request: the normalized server, a slash,
the endpoint stripped of slashes, a slash, then the id appended when truthy
(an id of zero or None is not appended). -/
def makeRequestUrl (st : ClientSt) (endpoint : String) (id : Option Int) :
    String :=
  let url := st.server ++ "/" ++ stripSlash endpoint ++ "/"
  match id with
  | some i => if i ≠ 0 then url ++ toString i else url
  | none => url

/-- A network request issued by the client, as a trace event. -/
structure NetReq where
  method : String
  endpoint : String
deriving DecidableEq, Repr

/-- The server response to the final login request, as seen by the check in
Client.login that the result is a dict containing the token key. -/
inductive LoginResp where
  /-- not a dict (or no response). -/
  | notDict
  /-- a dict; token is the value under the token key when that key is
  present, expires_at the (truthy) value under the expires_at key if any. -/
  | dict (token : Option String) (expires_at : Option Int)
deriving DecidableEq, Repr

/-- Environment of one Client.login call: the cache file contents, the
current UTC time, the requests arriving at the redirect listener, and the
server response to the login or token-exchange request. -/
structure LoginEnv where
  fileState : FileState
  now : Int
  incoming : List Request
  resp : LoginResp
deriving Repr

/-- Model of Cache.update_from_login: token from the response; expiry from
the response when present and truthy, else one hour from now. -/
def Cache.updateFromLogin (c : Cache) (token : String)
    (expires_at : Option Int) (now : Int) : Cache :=
  { c with
    token := some token
    expires_at := some (expires_at.getD (now + 3600)) }

/-- Shared tail of Client.login: raise APIError unless the response is a
dict containing the token key, else update the cache from it (and write the
cache file). -/
def finishLogin (st : ClientSt) (c : Cache) (env : LoginEnv)
    (trace : List NetReq) : (Except PyErr ClientSt) × List NetReq :=
  match env.resp with
  | .notDict => (.error .apiError, trace)
  | .dict none _ => (.error .apiError, trace)
  | .dict (some t) e =>
    (.ok { st with cache := c.updateFromLogin t e env.now }, trace)

/-- Model of Client.login: read the cache (errors propagate); if the cached
token is truthy, return with no network request; otherwise perform the
password flow or the Azure interactive flow and update the cache from the
response.  The second component is the trace of HTTP requests issued. -/
def Client.login (st : ClientSt) (env : LoginEnv) :
    (Except PyErr ClientSt) × List NetReq :=
  match st.cache.read env.fileState env.now with
  | .error e => (.error e, [])
  | .ok c =>
    if truthy c.token then
      (.ok { st with cache := c }, [])
    else if st.azure_login then
      let t1 : List NetReq := [⟨"GET", "login_azure"⟩]
      match (runCallbackServer env.incoming).1 with
      | .error e => (.error e, t1)
      | .ok _code => finishLogin st c env (t1 ++ [⟨"POST", "login_azure"⟩])
    else
      finishLogin st c env [⟨"POST", "login"⟩]

/-- Helper for claim C7: the output of replaceCharsAux never contains an
illegal character, whatever the run flag. -/
lemma replaceCharsAux_all (b : Bool) (l : List Char) :
    (replaceCharsAux b l).all (fun c => !illegalChar c) = true := by
  induction l generalizing b with
  | nil => rfl
  | cons c cs ih =>
    have hu : (!illegalChar '_') = true := by decide
    cases hc : illegalChar c with
    | true =>
      cases b with
      | true => simpa only [replaceCharsAux, hc, if_true] using ih true
      | false => simp [replaceCharsAux, hc, hu, ih true]
    | false =>
      simp only [replaceCharsAux, hc, Bool.false_eq_true, if_false,
        List.all_cons, hc, Bool.not_false, ih false, Bool.and_self]

/-! ## Claims -/

/-- C1: for every on-disk cache record, Cache.read yields a usable session
(token and expires_at set) if and only if the stored server equals the cache
server, the stored email equals the cache email, and the stored expires_at is
strictly after the current UTC time; if any condition fails, read reports no
usable session even though the file exists and parses correctly. -/
theorem cache_read_usable_iff (c : Cache) (r : CacheRecord) (now : Int)
    (h : c.token = none) :
    c.read (.parsed r) now = .ok (c.readRecord r now) ∧
      (usableSession (c.readRecord r now) ↔
        c.server = r.server ∧ c.email = r.email ∧ now < r.expires_at) := by
  refine ⟨rfl, ?_⟩
  unfold Cache.readRecord
  by_cases hc : c.server = r.server ∧ c.email = r.email ∧ now < r.expires_at
  · simp [hc, usableSession]
  · simp [hc, usableSession, h]

/-- Witness for C1 at a concrete matching, future-dated record. -/
theorem cache_read_usable_iff_witness :
    usableSession
      (Cache.readRecord ⟨"https://s", "e", none, none⟩
        ⟨"https://s", "e", "tok", 100⟩ 0) :=
  ((cache_read_usable_iff ⟨"https://s", "e", none, none⟩
      ⟨"https://s", "e", "tok", 100⟩ 0 rfl).2).mpr (by decide)

/-- C2: for every incoming GET request whose query string contains a code
parameter, the redirect listener captures exactly the first code value,
responds with HTTP 200, and terminates after this one request, serving no
further requests; run_callback_server then returns that captured code. -/
theorem callback_captures_first_code (r : Request) (rest : List Request)
    (c : String) (h : r.firstCode = some c) :
    runCallbackServer (r :: rest) = (.ok c, [(r, 200)]) := by
  simp [runCallbackServer, doGET, h]

/-- Witness for C2: a request carrying two code values followed by another
pending request; only the first request is served and its first code value is
returned. -/
theorem callback_captures_first_code_witness :
    runCallbackServer
        [⟨[("code", ["XYZ", "other"])]⟩, ⟨[("code", ["ABC"])]⟩] =
      (.ok "XYZ", [(⟨[("code", ["XYZ", "other"])]⟩, 200)]) :=
  callback_captures_first_code ⟨[("code", ["XYZ", "other"])]⟩
    [⟨[("code", ["ABC"])]⟩] "XYZ" rfl

/-- C3 counterexample: a request without a code parameter, followed by a
qualifying request carrying a code.  The claim says the listener answers 400
and keeps waiting so that the qualifying request is then served and its code
returned; the code instead terminates after the first request, never serves
the second, and run_callback_server raises IndexError instead of returning a
code. -/
theorem callback_no_code_keeps_waiting_cex :
    runCallbackServer [⟨[]⟩, ⟨[("code", ["XYZ"])]⟩] =
      (.error .indexError, [(⟨[]⟩, 400)]) := rfl

/-- C3 amended: for every incoming request whose query string lacks a code
parameter, the redirect listener responds with HTTP 400 but terminates after
this single request (it is the one request served by handle_request); no
further request is served and run_callback_server raises IndexError since no
code was captured. -/
theorem callback_no_code_responds_400_and_terminates (r : Request)
    (rest : List Request) (h : r.firstCode = none) :
    runCallbackServer (r :: rest) = (.error .indexError, [(r, 400)]) := by
  simp [runCallbackServer, doGET, h]

/-- Witness for the amended C3 at a concrete codeless request followed by a
qualifying one. -/
theorem callback_no_code_responds_400_witness :
    runCallbackServer [⟨[("state", ["s1"])]⟩, ⟨[("code", ["XYZ"])]⟩] =
      (.error .indexError, [(⟨[("state", ["s1"])]⟩, 400)]) :=
  callback_no_code_responds_400_and_terminates ⟨[("state", ["s1"])]⟩
    [⟨[("code", ["XYZ"])]⟩] rfl

/-- C4: evaluation of the code at the failing input.  On a cache file that
exists but is not valid JSON, Cache.read raises an uncaught NameError (the
except branch only logs, then the unbound local named data is dereferenced),
and Client.login propagates that error with no fallback fresh login (empty
request trace) instead of recovering with a CacheMiss. -/
theorem cache_unparseable_raises_nameError :
    Cache.read ⟨"https://s", "e", none, none⟩ .unparseable 0 =
        .error .nameError ∧
      Client.login
          ⟨"https://s", "e", some "pw", false, ⟨"https://s", "e", none, none⟩⟩
          ⟨.unparseable, 0, [], .dict (some "tok") none⟩ =
        (.error .nameError, []) :=
  ⟨rfl, rfl⟩

/-- C5: constructing a Client with both password and azure_login set, or with
neither set, fails immediately at construction (a pure function, before any
network activity or file I-O) with ValueError; constructing it with exactly
one of the two modes succeeds. -/
theorem client_init_auth_mode_exclusive (server email : String)
    (password : Option String) (azure : Bool) :
    ((∃ st, Client.init server email password azure = .ok st) ↔
        password.isSome ≠ azure) ∧
      (password.isSome = azure →
        Client.init server email password azure = .error .valueError) := by
  cases password <;> cases azure <;> simp [Client.init]

/-- Witness for C5: both modes set fails; password only succeeds. -/
theorem client_init_auth_mode_exclusive_witness :
    Client.init "server" "e" (some "pw") true = .error .valueError ∧
      ∃ st, Client.init "server" "e" (some "pw") false = .ok st :=
  ⟨(client_init_auth_mode_exclusive "server" "e" (some "pw") true).2 rfl,
   (client_init_auth_mode_exclusive "server" "e" (some "pw") false).1.mpr
     (by decide)⟩

/-- C6: for every (server, identity, token, expiry) with a timezone-aware
expiry strictly in the future, Cache.write followed by Cache.read on a fresh
cache constructed with the same server and identity (reading the very record
write produced, i.e. the same path) yields a session whose token and
expires_at equal the written ones. -/
theorem cache_write_read_roundtrip (server email t : String) (e now : Int)
    (h : now < e) :
    ∃ r, Cache.write ⟨server, email, some t, some e⟩ = some r ∧
      Cache.read ⟨server, email, none, none⟩ (.parsed r) now =
        .ok ⟨server, email, some t, some e⟩ := by
  refine ⟨⟨server, email, t, e⟩, rfl, ?_⟩
  simp [Cache.read, Cache.readRecord, h]

/-- Witness for C6 at a concrete tuple with a future expiry. -/
theorem cache_write_read_roundtrip_witness :
    ∃ r, Cache.write ⟨"https://s", "e", some "tok", some 100⟩ = some r ∧
      Cache.read ⟨"https://s", "e", none, none⟩ (.parsed r) 0 =
        .ok ⟨"https://s", "e", some "tok", some 100⟩ :=
  cache_write_read_roundtrip "https://s" "e" "tok" 100 0 (by decide)

/-- C7 counterexample: two distinct servers whose derived cache file names
coincide, refuting the no-collision part of the claim: a single slash and a
double slash both collapse to one underscore. -/
theorem replace_chars_collision_cex :
    Cache.replaceChars "a/b" = Cache.replaceChars "a//b" ∧
      ("a/b" : String) ≠ "a//b" := by
  exact ⟨rfl, by decide⟩

/-- C7 amended: the cache file name derivation replaces every maximal run of
characters illegal in file names by a single underscore, so the derived name
contains no illegal characters, and the same server always maps to the same
file; but distinct servers can collide.  Deriving from the local test server
URL yields a filesystem-safe name. -/
theorem replace_chars_sanitizes :
    (∀ s : String,
        (Cache.replaceChars s).data.all (fun c => !illegalChar c) = true) ∧
      Cache.replaceChars "http://127.0.0.1:5000/" = "http_127.0.0.1_5000_" ∧
      Cache.defaultFileName "http://127.0.0.1:5000/" =
        "http_127.0.0.1_5000_.json" :=
  ⟨fun s => replaceCharsAux_all false s.data, rfl, rfl⟩

/-- C8 counterexample: when no request arrives within the window,
run_callback_server fails with IndexError (indexing the empty shared list),
not with a dedicated Timeout error as the claim states. -/
theorem callback_timeout_not_timeout_error_cex :
    runCallbackServer [] = (.error .indexError, []) ∧
      PyErr.indexError ≠ PyErr.timeoutError :=
  ⟨rfl, by decide⟩

/-- C8 amended: if no request containing a code parameter arrives within the
60-second window, run_callback_server raises an IndexError; for an
azure-mode client with no usable cached session, that error propagates out
of Client.login (after the single auth-URL request), and a timeout is never
reported as a successful login: no code value is returned. -/
theorem callback_timeout_raises_indexError (resp : LoginResp) (now : Int) :
    runCallbackServer [] = (.error .indexError, []) ∧
      Client.login ⟨"https://s", "e", none, true, ⟨"https://s", "e", none, none⟩⟩
          ⟨.missing, now, [], resp⟩ =
        (.error .indexError, [⟨"GET", "login_azure"⟩]) :=
  ⟨rfl, rfl⟩

/-- C9 counterexample: a parsed record matching the cache with a future
expiry but an empty-string token.  Cache.read yields a usable session (token
and expires_at set), yet Client.login does not short-circuit: it issues a
network login request because the empty token is falsy in Python. -/
theorem login_empty_token_network_cex :
    (∃ c, Cache.read ⟨"https://s", "e", none, none⟩
          (.parsed ⟨"https://s", "e", "", 100⟩) 0 = .ok c ∧ usableSession c) ∧
      (Client.login
          ⟨"https://s", "e", some "pw", false, ⟨"https://s", "e", none, none⟩⟩
          ⟨.parsed ⟨"https://s", "e", "", 100⟩, 0, [], .dict (some "T") none⟩).2 =
        [⟨"POST", "login"⟩] := by
  exact ⟨⟨_, rfl, by decide⟩, rfl⟩

/-- C9 amended: whenever Cache.read succeeds with a session whose token is
truthy (set and nonempty), Client.login returns that cached session and makes
no network request; a session whose token is the empty string is not treated
as valid and triggers a fresh login instead. -/
theorem login_short_circuits_on_truthy_token (st : ClientSt) (env : LoginEnv)
    (c : Cache) (h1 : st.cache.read env.fileState env.now = .ok c)
    (h2 : truthy c.token = true) :
    Client.login st env = (.ok { st with cache := c }, []) := by
  unfold Client.login
  rw [h1]
  simp [h2]

/-- Witness for the amended C9: a fresh matching cached record with a
nonempty token short-circuits login with an empty request trace, even though
the environment would answer the login request with a non-dict. -/
theorem login_short_circuits_witness :
    Client.login
        ⟨"https://s", "e", some "pw", false, ⟨"https://s", "e", none, none⟩⟩
        ⟨.parsed ⟨"https://s", "e", "tok", 100⟩, 0, [], .notDict⟩ =
      (.ok ⟨"https://s", "e", some "pw", false,
        ⟨"https://s", "e", some "tok", some 100⟩⟩, []) :=
  login_short_circuits_on_truthy_token
    ⟨"https://s", "e", some "pw", false, ⟨"https://s", "e", none, none⟩⟩
    ⟨.parsed ⟨"https://s", "e", "tok", 100⟩, 0, [], .notDict⟩
    ⟨"https://s", "e", some "tok", some 100⟩ rfl rfl

/-- C10: for every server string starting with neither the http nor the
https scheme, the constructor prepends the https scheme and strips all
trailing slashes; this normalized URL becomes the server identity stored in
the token cache and the base of every request URL. -/
theorem client_normalizes_server (server email pw ep : String)
    (h1 : strBeginsWith server "http://" = false)
    (h2 : strBeginsWith server "https://" = false) :
    ∃ st, Client.init server email (some pw) false = .ok st ∧
      st.server = rstripSlash ("https://" ++ server) ∧
      st.cache.server = st.server ∧
      makeRequestUrl st ep none = st.server ++ "/" ++ stripSlash ep ++ "/" := by
  refine ⟨_, rfl, ?_, rfl, rfl⟩
  simp [normalizeServer, h1, h2]

/-- Witness for C10 at the local test server address, evaluating the
normalized URL. -/
theorem client_normalizes_server_witness :
    (∃ st, Client.init "127.0.0.1:5000/" "e" (some "pw") false = .ok st ∧
        st.server = rstripSlash ("https://" ++ "127.0.0.1:5000/") ∧
        st.cache.server = st.server ∧
        makeRequestUrl st "items" none =
          st.server ++ "/" ++ stripSlash "items" ++ "/") ∧
      rstripSlash ("https://" ++ "127.0.0.1:5000/") = "https://127.0.0.1:5000" :=
  ⟨client_normalizes_server "127.0.0.1:5000/" "e" "pw" "items" (by decide)
    (by decide), rfl⟩

end RAClient
